import Mathlib

/-!
Verification of the role / role-grant core of the terraform-provider-redshift
repository: a shallow embedding of `redshift/config.go`, the role-grant
resource of `redshift/provider.go`, and the role resource, together with
theorems about identifier encoding/decoding, SQL statement shape, the
transactional delete paths, and the lazily cached configuration facts.

Go strings are embedded as `List Char`; the effectful database layer is
embedded by passing each round-trip's result (`Except`-valued) explicitly and
recording the issued statements, the commit decision, and the caller-visible
identifier in explicit outcome structures.
-/

namespace TPRedshift

/-- Characters of a Go string. -/
abbrev Chars := List Char

/-- Models Go `strings.ToLower` (character-wise lowering). -/
def listToLower (s : Chars) : Chars := s.map Char.toLower

/-- Models Go `strings.ToUpper` (character-wise raising). -/
def listToUpper (s : Chars) : Chars := s.map Char.toUpper

/-- Models Go `strings.Split(s, sep)` for a one-character separator `c`:
the list of maximal runs between occurrences of `c`; always non-empty,
with `splitOnChar c [] = [[]]` exactly as in Go. -/
def splitOnChar (c : Char) : Chars → List Chars
  | [] => [[]]
  | x :: xs =>
    let r := splitOnChar c xs
    if x = c then [] :: r
    else
      match r with
      | [] => [[x]]
      | h :: t => (x :: h) :: t

theorem splitOnChar_ne_nil (c : Char) (s : Chars) : splitOnChar c s ≠ [] := by
  cases s with
  | nil => simp [splitOnChar]
  | cons x xs =>
    simp only [splitOnChar]
    by_cases h : x = c
    · simp [h]
    · simp only [h, if_false]
      cases splitOnChar c xs <;> simp

theorem splitOnChar_not_mem (c : Char) (xs : Chars) (h : c ∉ xs) :
    splitOnChar c xs = [xs] := by
  induction xs with
  | nil => rfl
  | cons x xs ih =>
    rw [List.mem_cons, not_or] at h
    obtain ⟨hx, hxs⟩ := h
    simp only [splitOnChar, ih hxs]
    rw [if_neg (fun hh => hx hh.symm)]

theorem splitOnChar_append (c : Char) (xs ys : Chars) (h : c ∉ xs) :
    splitOnChar c (xs ++ c :: ys) = xs :: splitOnChar c ys := by
  induction xs with
  | nil => simp [splitOnChar]
  | cons x xs ih =>
    rw [List.mem_cons, not_or] at h
    obtain ⟨hx, hxs⟩ := h
    simp only [List.cons_append, splitOnChar]
    rw [if_neg (fun hh => hx hh.symm), List.append_eq, ih hxs]

/-- Models `generateRoleGrantID` of `redshift/provider.go`:
`fmt.Sprintf("role:%s:%s:%s", strings.ToLower(roleName),
strings.ToLower(grantToType), strings.ToLower(grantToName))`. -/
def generateRoleGrantID (roleName grantToType grantToName : Chars) : Chars :=
  "role:".toList ++ listToLower roleName ++ [':'] ++ listToLower grantToType
    ++ [':'] ++ listToLower grantToName

theorem generateRoleGrantID_eq (r k n : Chars) :
    generateRoleGrantID r k n =
      "role".toList ++ ':' ::
        (listToLower r ++ ':' :: (listToLower k ++ ':' :: listToLower n)) := by
  simp only [generateRoleGrantID, List.append_assoc]
  rfl

/-- Models the identifier parsing at the top of `resourceRedshiftRoleGrantDelete`:
`strings.Split(d.Id(), ":")`, a hard error unless exactly four fields result,
then the triple `(parts[1], parts[2], parts[3])`. -/
def decodeRoleGrantID (id : Chars) : Except Chars (Chars × Chars × Chars) :=
  match splitOnChar ':' id with
  | [_, roleName, grantToType, grantToName] =>
      Except.ok (roleName, grantToType, grantToName)
  | _ => Except.error ("invalid role grant ID format: ".toList ++ id)

/-- Models `pq.QuoteIdentifier`: wrap the name in double quotes, doubling any
embedded double quote. -/
def quoteIdent (s : Chars) : Chars :=
  '"' :: (s.flatMap fun c => if c = '"' then ['"', '"'] else [c]) ++ ['"']

/-- `leadsWith pat s` decides whether `s` starts with `pat`. -/
def leadsWith : Chars → Chars → Bool
  | [], _ => true
  | _ :: _, [] => false
  | p :: ps, s :: ss => p = s && leadsWith ps ss

/-- Models Go `strings.Contains(s, sub)`. -/
def containsChars : Chars → Chars → Bool
  | [], sub => sub.isEmpty
  | c :: rest, sub => leadsWith sub (c :: rest) || containsChars rest sub

/-- The GRANT statement built by `resourceRedshiftRoleGrantCreate`: the
principal-kind keyword is omitted for `USER` and written (uppercased) between
`TO` and the quoted grantee otherwise. -/
def buildGrantQuery (roleName grantToType grantToName : Chars) : Chars :=
  let k := listToUpper grantToType
  if k = "USER".toList then
    "GRANT ROLE ".toList ++ quoteIdent roleName ++ " TO ".toList
      ++ quoteIdent grantToName
  else
    "GRANT ROLE ".toList ++ quoteIdent roleName ++ " TO ".toList ++ k
      ++ " ".toList ++ quoteIdent grantToName

/-- The REVOKE statement built by `resourceRedshiftRoleGrantDelete`, with the
same USER/ROLE/GROUP keyword asymmetry as the GRANT statement. -/
def buildRevokeQuery (roleName grantToType grantToName : Chars) : Chars :=
  let k := listToUpper grantToType
  if k = "USER".toList then
    "REVOKE ROLE ".toList ++ quoteIdent roleName ++ " FROM ".toList
      ++ quoteIdent grantToName
  else
    "REVOKE ROLE ".toList ++ quoteIdent roleName ++ " FROM ".toList ++ k
      ++ " ".toList ++ quoteIdent grantToName

/-- Models the schema `ValidateFunc` of the `grant_to_type` attribute in
`redshiftRoleGrant`: accepted exactly when the lowercased value is one of
`user`, `group`, `role`. -/
def validateGrantToType (val : Chars) : Bool :=
  let v := listToLower val
  v = "user".toList || v = "group".toList || v = "role".toList

/-- Result of one database round trip; the error carries the driver's
message text. -/
abbrev DbRes (α : Type) := Except Chars α

/-- Caller-visible outcome of `resourceRedshiftRoleGrantCreate`, given the
results of the REVOKE-side effects: the GRANT statement executed, whether the
transaction was committed, the identifier handed to the orchestrator
(`none` = never set), and the returned error. -/
structure GrantCreateOutcome where
  grantSql : Chars
  committed : Bool
  id : Option Chars
  error : Option Chars
  deriving Repr, DecidableEq

/-- Models `resourceRedshiftRoleGrantCreate` up to the final re-read:
uppercase the kind, build the dialect-specific GRANT statement, execute it in
a transaction, commit, then set the composite identifier. -/
def resourceRedshiftRoleGrantCreate (roleName grantToType grantToName : Chars)
    (execRes commitRes : DbRes Unit) : GrantCreateOutcome :=
  let q := buildGrantQuery roleName grantToType grantToName
  match execRes with
  | Except.error e =>
      ⟨q, false, none, some ("could not grant role: ".toList ++ e)⟩
  | Except.ok _ =>
      match commitRes with
      | Except.error e =>
          ⟨q, false, none, some ("could not commit transaction: ".toList ++ e)⟩
      | Except.ok _ =>
          ⟨q, true,
            some (generateRoleGrantID roleName (listToUpper grantToType)
              grantToName), none⟩

/-- Caller-visible outcome of `resourceRedshiftRoleGrantDelete`:
the REVOKE statement that was built and executed (`none` when the identifier
failed to decode), whether the transaction was committed, and the returned
error. -/
structure GrantDeleteOutcome where
  revokeSql : Option Chars
  committed : Bool
  error : Option Chars
  deriving Repr, DecidableEq

/-- Models `resourceRedshiftRoleGrantDelete`: split the identifier on `:`
(hard error unless exactly four fields), build the dialect-specific REVOKE
from the decoded triple and execute it; an execution error whose text contains
"does not exist" is treated as already-deleted — the transaction is still
committed and success returned — while any other execution error is wrapped
and returned. -/
def resourceRedshiftRoleGrantDelete (id : Chars)
    (execRes commitRes : DbRes Unit) : GrantDeleteOutcome :=
  match splitOnChar ':' id with
  | [_, roleName, grantToType, grantToName] =>
      let q := buildRevokeQuery roleName grantToType grantToName
      match execRes with
      | Except.error e =>
          if containsChars e "does not exist".toList then
            match commitRes with
            | Except.error ce =>
                ⟨some q, false,
                  some ("could not commit transaction: ".toList ++ ce)⟩
            | Except.ok _ => ⟨some q, true, none⟩
          else ⟨some q, false, some ("could not revoke role: ".toList ++ e)⟩
      | Except.ok _ =>
          match commitRes with
          | Except.error ce =>
              ⟨some q, false,
                some ("could not commit transaction: ".toList ++ ce)⟩
          | Except.ok _ => ⟨some q, true, none⟩
  | _ => ⟨none, false, some ("invalid role grant ID format: ".toList ++ id)⟩

/-- Error of a row-scan, distinguishing Go's `sql.ErrNoRows` from every other
driver error (whose message text is carried). -/
inductive ScanErr where
  | noRows : ScanErr
  | other : Chars → ScanErr
  deriving Repr, DecidableEq

/-- The system views the read paths query. -/
inductive SysView where
  | svvUserGrants : SysView
  | svvRoleGrants : SysView
  | svvRoles : SysView
  deriving Repr, DecidableEq

/-- Caller-visible outcome of a Read: the system view queried (`none` when no
query was issued), the identifier written back (`none` = left unchanged,
`some []` = cleared to signal absence), and the returned error. -/
structure ReadOutcome where
  queried : Option SysView
  newId : Option Chars
  error : Option Chars
  deriving Repr, DecidableEq

/-- Models `resourceRedshiftRoleGrantRead`: dispatch on the uppercased kind —
`USER` queries SVV_USER_GRANTS, `ROLE` queries SVV_ROLE_GRANTS, `GROUP`
returns success with no query (no system view exposes it; the recorded state
is trusted), anything else is a hard `unsupported grant_to_type` error; for
the two query paths `sql.ErrNoRows` clears the identifier and is success,
any other scan error is wrapped and returned. -/
def resourceRedshiftRoleGrantRead (roleName grantToType grantToName : Chars)
    (scanRes : Except ScanErr Unit) : ReadOutcome :=
  let k := listToUpper grantToType
  let scan : SysView → ReadOutcome := fun v =>
    match scanRes with
    | Except.error ScanErr.noRows => ⟨some v, some [], none⟩
    | Except.error (ScanErr.other e) =>
        ⟨some v, none, some ("error reading role grant: ".toList ++ e)⟩
    | Except.ok _ => ⟨some v, none, none⟩
  if k = "USER".toList then scan SysView.svvUserGrants
  else if k = "ROLE".toList then scan SysView.svvRoleGrants
  else if k = "GROUP".toList then ⟨none, none, none⟩
  else ⟨none, none,
    some ("unsupported grant_to_type: ".toList ++ grantToType)⟩

/-- Models `resourceRedshiftRoleRead`: query SVV_ROLES by the identifier;
`sql.ErrNoRows` clears the identifier and is success, any other scan error is
wrapped with the identifier unchanged; on success the identifier is unchanged
(only the name attribute is refreshed from the scanned row). -/
def resourceRedshiftRoleRead (id : Chars) (scanRes : Except ScanErr Chars) :
    ReadOutcome :=
  match scanRes with
  | Except.error ScanErr.noRows => ⟨some SysView.svvRoles, some [], none⟩
  | Except.error (ScanErr.other e) =>
      ⟨some SysView.svvRoles, none,
        some ("error reading role: ".toList ++ e)⟩
  | Except.ok _ => ⟨some SysView.svvRoles, none, none⟩

/-- The message text of a scan error (`sql.ErrNoRows` renders as Go prints
it). -/
def scanErrText : ScanErr → Chars
  | ScanErr.noRows => "sql: no rows in result set".toList
  | ScanErr.other e => e

/-- Caller-visible outcome of `resourceRedshiftRoleCreate` up to the final
re-read: the identifier written (`none` = never set), whether the transaction
was committed, and the returned error. -/
structure RoleCreateOutcome where
  id : Option Chars
  committed : Bool
  error : Option Chars
  deriving Repr, DecidableEq

/-- Models `resourceRedshiftRoleCreate` up to the final re-read: execute
`CREATE ROLE` in a transaction, verify the role is visible in SVV_ROLES
(failing loudly otherwise), set the identifier to the lowercased role name,
then commit — so the identifier is assigned between verification and commit. -/
def resourceRedshiftRoleCreate (roleName : Chars) (execRes : DbRes Unit)
    (verifyRes : Except ScanErr Chars) (commitRes : DbRes Unit) :
    RoleCreateOutcome :=
  match execRes with
  | Except.error e =>
      ⟨none, false, some ("could not create redshift role: ".toList ++ e)⟩
  | Except.ok _ =>
      match verifyRes with
      | Except.error err =>
          ⟨none, false,
            some ("could not verify role creation for ".toList ++ roleName
              ++ ": ".toList ++ scanErrText err)⟩
      | Except.ok _ =>
          match commitRes with
          | Except.error e =>
              ⟨some (listToLower roleName), false,
                some ("could not commit transaction: ".toList ++ e)⟩
          | Except.ok _ => ⟨some (listToLower roleName), true, none⟩

/-- Caller-visible outcome of `resourceRedshiftRoleDelete`: whether the
`DROP ROLE` statement was executed, whether the transaction was committed,
and the returned error. -/
structure RoleDeleteOutcome where
  dropExecuted : Bool
  committed : Bool
  error : Option Chars
  deriving Repr, DecidableEq

/-- Models `resourceRedshiftRoleDelete`: inside a transaction, check
existence in SVV_ROLES; if the role is absent, return success immediately
(no DROP, no commit — only the deferred rollback releases the transaction);
otherwise execute `DROP ROLE` and commit. -/
def resourceRedshiftRoleDelete (existsRes : DbRes Bool)
    (execRes commitRes : DbRes Unit) : RoleDeleteOutcome :=
  match existsRes with
  | Except.error e => ⟨false, false, some e⟩
  | Except.ok false => ⟨false, false, none⟩
  | Except.ok true =>
      match execRes with
      | Except.error e =>
          ⟨true, false, some ("error dropping role: ".toList ++ e)⟩
      | Except.ok _ =>
          match commitRes with
          | Except.error e =>
              ⟨true, false,
                some ("could not commit transaction: ".toList ++ e)⟩
          | Except.ok _ => ⟨true, true, none⟩

/-- Error of a probe query, classified the way `isPqErrorWithCode` does:
either the insufficient-privileges class or any other error (message kept). -/
inductive ProbeErr where
  | insufficientPrivileges : ProbeErr
  | otherErr : Chars → ProbeErr
  deriving Repr, DecidableEq

/-- The serverless-related fields of `Config` (the mutex serializes calls, so
the sequential state is just the two booleans). -/
structure ConfigServerlessState where
  isServerless : Bool
  checkedForServerless : Bool
  deriving Repr, DecidableEq

/-- The fresh state produced by `NewConfig` (both fields Go-zero). -/
def newConfigServerlessState : ConfigServerlessState := ⟨false, false⟩

/-- Result of one `Config.IsServerless` call: the updated state, the returned
flag and error, and the number of probe queries issued during the call. -/
structure ServerlessCallResult where
  state : ConfigServerlessState
  value : Bool
  error : Option ProbeErr
  probes : Nat
  deriving Repr, DecidableEq

/-- Models one call of `Config.IsServerless`, given the answers the database
would give to the two probe queries (`SELECT 1 FROM SYS_SERVERLESS_USAGE`,
then `SELECT 1 FROM SVL_QUERY_SUMMARY`): if already checked, return the
stored flag with no probe; otherwise mark checked unconditionally, then probe
— success means serverless, insufficient privileges triggers the second probe
(whose failure also means serverless), and any other first-probe error is
returned as-is with a `false` value and the serverless field untouched. -/
def isServerlessCall (s : ConfigServerlessState)
    (probe1 probe2 : Except ProbeErr Unit) : ServerlessCallResult :=
  if s.checkedForServerless then ⟨s, s.isServerless, none, 0⟩
  else
    match probe1 with
    | Except.ok _ => ⟨⟨true, true⟩, true, none, 1⟩
    | Except.error ProbeErr.insufficientPrivileges =>
        match probe2 with
        | Except.error _ => ⟨⟨true, true⟩, true, none, 2⟩
        | Except.ok _ => ⟨⟨false, true⟩, false, none, 2⟩
    | Except.error e => ⟨⟨s.isServerless, true⟩, false, some e, 1⟩

/-- The username-retrieval field of `Config` (the empty string is Go's
not-yet-retrieved zero value). -/
structure ConfigUsernameState where
  retrievedUsername : Chars
  deriving Repr, DecidableEq

deriving instance DecidableEq for Except

/-- Result of one `Config.GetUsername` call: updated state, returned value or
error, and the number of `SELECT current_user` queries issued. -/
structure UsernameCallResult where
  state : ConfigUsernameState
  result : DbRes Chars
  queries : Nat
  deriving Repr, DecidableEq

/-- Models one call of `Config.GetUsername` (the double-checked lock collapses
to one check sequentially): return the cached name without querying when it is
non-empty; otherwise issue the identity query, caching the name on success. -/
def getUsername (s : ConfigUsernameState) (queryRes : DbRes Chars) :
    UsernameCallResult :=
  if s.retrievedUsername ≠ [] then ⟨s, Except.ok s.retrievedUsername, 0⟩
  else
    match queryRes with
    | Except.error e =>
        ⟨s, Except.error ("error retrieving current user: ".toList ++ e), 1⟩
    | Except.ok u => ⟨⟨u⟩, Except.ok u, 1⟩

/-- Result of one `Client.Connect` call: the client's updated username cache,
whether a new handle was created, the number of identity queries issued, and
the returned error. -/
structure ConnectResult where
  state : ConfigUsernameState
  created : Bool
  usernameQueries : Nat
  error : Option Chars
  deriving Repr, DecidableEq

/-- Models one `Client.Connect` call: when the registry holds a live handle
for the connection string (`cachedLive`), it is returned untouched; otherwise
a new handle is opened and `Config.GetUsername` is invoked once against it,
failing the whole call if that lookup fails. -/
def clientConnect (s : ConfigUsernameState) (cachedLive : Bool)
    (openRes : DbRes Unit) (userQueryRes : DbRes Chars) : ConnectResult :=
  if cachedLive then ⟨s, false, 0, none⟩
  else
    match openRes with
    | Except.error e =>
        ⟨s, false, 0,
          some ("error creating Redshift driver instance: ".toList ++ e)⟩
    | Except.ok _ =>
        let r := getUsername s userQueryRes
        match r.result with
        | Except.error e =>
            ⟨r.state, true, r.queries,
              some ("error retrieving username from Redshift database: ".toList
                ++ e)⟩
        | Except.ok _ => ⟨r.state, true, r.queries, none⟩

/-! ### Theorems about the claims. -/

/-- C1 (amended): decoding the composite identifier produced by
`generateRoleGrantID` yields back the lowercase-normalized triple whenever no
lowercase-normalized field contains the delimiter `:`; a field containing the
delimiter makes the identifier split into more than four parts, which the
decoder of `resourceRedshiftRoleGrantDelete` rejects as malformed. -/
theorem roleGrantID_roundTrip (r k n : Chars)
    (hr : ':' ∉ listToLower r) (hk : ':' ∉ listToLower k)
    (hn : ':' ∉ listToLower n) :
    decodeRoleGrantID (generateRoleGrantID r k n) =
      Except.ok (listToLower r, listToLower k, listToLower n) := by
  have hrole : (':' : Char) ∉ "role".toList := by decide
  simp only [decodeRoleGrantID, generateRoleGrantID_eq,
    splitOnChar_append ':' "role".toList _ hrole,
    splitOnChar_append ':' _ _ hr, splitOnChar_append ':' _ _ hk,
    splitOnChar_not_mem ':' _ hn]

/-- C1 witness: the round trip at the spec's own scenario values. -/
theorem roleGrantID_roundTrip_witness :
    decodeRoleGrantID
        (generateRoleGrantID "Analyst".toList "ROLE".toList "Manager".toList) =
      Except.ok (listToLower "Analyst".toList, listToLower "ROLE".toList,
        listToLower "Manager".toList) :=
  roleGrantID_roundTrip "Analyst".toList "ROLE".toList "Manager".toList
    (by decide) (by decide) (by decide)

/-- C1 counterexample: for a role name containing the delimiter, decode is
not the inverse of encode — the identifier splits into five fields and the
decoder rejects it. -/
theorem roleGrantID_roundTrip_counterexample :
    decodeRoleGrantID
        (generateRoleGrantID "a:b".toList "user".toList "x".toList) =
      Except.error "invalid role grant ID format: role:a:b:user:x".toList := by
  decide

/-- C7: for each valid principal kind, the GRANT statement of
`resourceRedshiftRoleGrantCreate` and the REVOKE statement of
`resourceRedshiftRoleGrantDelete` omit the principal-kind keyword exactly for
`user` and carry the uppercase `ROLE`/`GROUP` keyword between `TO`/`FROM` and
the quoted grantee exactly for `role` and `group`. -/
theorem grant_revoke_keyword_asymmetry (r n : Chars) :
    buildGrantQuery r "user".toList n =
      "GRANT ROLE ".toList ++ quoteIdent r ++ " TO ".toList ++ quoteIdent n ∧
    buildGrantQuery r "role".toList n =
      "GRANT ROLE ".toList ++ quoteIdent r ++ " TO ROLE ".toList
        ++ quoteIdent n ∧
    buildGrantQuery r "group".toList n =
      "GRANT ROLE ".toList ++ quoteIdent r ++ " TO GROUP ".toList
        ++ quoteIdent n ∧
    buildRevokeQuery r "user".toList n =
      "REVOKE ROLE ".toList ++ quoteIdent r ++ " FROM ".toList
        ++ quoteIdent n ∧
    buildRevokeQuery r "role".toList n =
      "REVOKE ROLE ".toList ++ quoteIdent r ++ " FROM ROLE ".toList
        ++ quoteIdent n ∧
    buildRevokeQuery r "group".toList n =
      "REVOKE ROLE ".toList ++ quoteIdent r ++ " FROM GROUP ".toList
        ++ quoteIdent n := by
  refine ⟨?_, ?_, ?_, ?_, ?_, ?_⟩ <;>
    simp only [buildGrantQuery, buildRevokeQuery, List.append_assoc] <;> rfl

/-- C8: for grant reads of kinds `user` and `role` and for role reads, a
no-matching-row result clears the identifier and returns success, while any
other scan failure is returned as a wrapped error with the identifier
unchanged. -/
theorem read_notFound_clears_id (r n e : Chars) :
    resourceRedshiftRoleGrantRead r "user".toList n
        (Except.error ScanErr.noRows) =
      ⟨some SysView.svvUserGrants, some [], none⟩ ∧
    resourceRedshiftRoleGrantRead r "role".toList n
        (Except.error ScanErr.noRows) =
      ⟨some SysView.svvRoleGrants, some [], none⟩ ∧
    resourceRedshiftRoleGrantRead r "user".toList n
        (Except.error (ScanErr.other e)) =
      ⟨some SysView.svvUserGrants, none,
        some ("error reading role grant: ".toList ++ e)⟩ ∧
    resourceRedshiftRoleGrantRead r "role".toList n
        (Except.error (ScanErr.other e)) =
      ⟨some SysView.svvRoleGrants, none,
        some ("error reading role grant: ".toList ++ e)⟩ ∧
    resourceRedshiftRoleRead r (Except.error ScanErr.noRows) =
      ⟨some SysView.svvRoles, some [], none⟩ ∧
    resourceRedshiftRoleRead r (Except.error (ScanErr.other e)) =
      ⟨some SysView.svvRoles, none,
        some ("error reading role: ".toList ++ e)⟩ :=
  ⟨rfl, rfl, rfl, rfl, rfl, rfl⟩

/-- C9: reading a grant whose kind is `group` returns success without issuing
any query and without touching the identifier, whatever the database would
have answered. -/
theorem read_group_trusts_state (r n : Chars) (scanRes : Except ScanErr Unit) :
    resourceRedshiftRoleGrantRead r "group".toList n scanRes =
      ⟨none, none, none⟩ := rfl

/-- C10: in role Create the identifier is assigned after the verification
query succeeds and before the commit, so a failing commit returns an error
with the identifier already set to the lowercased role name, while a failing
verification leaves the identifier unset. -/
theorem roleCreate_id_set_before_commit (r v e e2 : Chars) :
    resourceRedshiftRoleCreate r (Except.ok ()) (Except.ok v)
        (Except.error e) =
      ⟨some (listToLower r), false,
        some ("could not commit transaction: ".toList ++ e)⟩ ∧
    resourceRedshiftRoleCreate r (Except.ok ())
        (Except.error (ScanErr.other e2)) (Except.ok ()) =
      ⟨none, false,
        some ("could not verify role creation for ".toList ++ r
          ++ ": ".toList ++ e2)⟩ :=
  ⟨rfl, rfl⟩

/-- C2 counterexample: a composite identifier carrying the kind `banana`
reaches `resourceRedshiftRoleGrantDelete` without any hard error — the
uppercased kind is embedded into the REVOKE statement, which is executed and
committed. -/
theorem roleGrantDelete_invalidKind_counterexample :
    resourceRedshiftRoleGrantDelete "role:r:banana:x".toList
        (Except.ok ()) (Except.ok ()) =
      ⟨some "REVOKE ROLE \"r\" FROM BANANA \"x\"".toList, true, none⟩ := by
  decide

/-- C2 (amended): a `grant_to_kind` outside {user, role, group} supplied
directly is rejected by the schema validation, and Read hard-errors on it
before issuing any query; but Create and Delete do not re-validate the kind —
any kind other than `user` takes the keyword-included branch, so a kind
decoded from a composite identifier is embedded uppercased into the
GRANT/REVOKE statement instead of causing an error. -/
theorem grant_invalidKind_handling (k : Chars)
    (hup : listToUpper k ≠ "USER".toList ∧ listToUpper k ≠ "ROLE".toList ∧
      listToUpper k ≠ "GROUP".toList)
    (hlow : listToLower k ≠ "user".toList ∧ listToLower k ≠ "group".toList ∧
      listToLower k ≠ "role".toList) :
    validateGrantToType k = false ∧
    (∀ r n scanRes, resourceRedshiftRoleGrantRead r k n scanRes =
      ⟨none, none, some ("unsupported grant_to_type: ".toList ++ k)⟩) ∧
    (∀ r n, buildGrantQuery r k n =
      "GRANT ROLE ".toList ++ quoteIdent r ++ " TO ".toList ++ listToUpper k
        ++ " ".toList ++ quoteIdent n) ∧
    (∀ r n, buildRevokeQuery r k n =
      "REVOKE ROLE ".toList ++ quoteIdent r ++ " FROM ".toList
        ++ listToUpper k ++ " ".toList ++ quoteIdent n) := by
  obtain ⟨h1, h2, h3⟩ := hup
  obtain ⟨l1, l2, l3⟩ := hlow
  refine ⟨?_, ?_, ?_, ?_⟩
  · simp only [validateGrantToType, Bool.or_eq_false_iff,
      decide_eq_false_iff_not]
    exact ⟨⟨l1, l2⟩, l3⟩
  · intro r n scanRes
    simp only [resourceRedshiftRoleGrantRead, if_neg h1, if_neg h2, if_neg h3]
  · intro r n
    simp only [buildGrantQuery, if_neg h1]
  · intro r n
    simp only [buildRevokeQuery, if_neg h1]

/-- C2 witness: the amended claim at the kind `banana`. -/
theorem grant_invalidKind_handling_witness :
    validateGrantToType "banana".toList = false ∧
    resourceRedshiftRoleGrantRead "r".toList "banana".toList "x".toList
        (Except.ok ()) =
      ⟨none, none,
        some ("unsupported grant_to_type: ".toList ++ "banana".toList)⟩ ∧
    buildGrantQuery "r".toList "banana".toList "x".toList =
      "GRANT ROLE ".toList ++ quoteIdent "r".toList ++ " TO ".toList
        ++ listToUpper "banana".toList ++ " ".toList
        ++ quoteIdent "x".toList ∧
    buildRevokeQuery "r".toList "banana".toList "x".toList =
      "REVOKE ROLE ".toList ++ quoteIdent "r".toList ++ " FROM ".toList
        ++ listToUpper "banana".toList ++ " ".toList
        ++ quoteIdent "x".toList := by
  obtain ⟨h1, h2, h3, h4⟩ :=
    grant_invalidKind_handling "banana".toList (by decide) (by decide)
  exact ⟨h1, h2 _ _ _, h3 _ _, h4 _ _⟩

/-- C3 counterexample: role delete whose existence check reports the role
absent returns success without committing the open transaction — the
deferred rollback alone releases it — contradicting the claim that every
already-absent delete path still commits. -/
theorem roleDelete_absent_noCommit_counterexample :
    resourceRedshiftRoleDelete (Except.ok false) (Except.ok ())
        (Except.ok ()) =
      ⟨false, false, none⟩ := rfl

/-- C3 (amended): the grant-delete absence path (a revoke error whose text
contains "does not exist") does commit its open transaction and return
success, but the role-delete absence path (existence check finds no role)
returns success through an early return without committing. -/
theorem delete_absence_paths (e : Chars)
    (h : containsChars e "does not exist".toList = true) :
    (∀ id p0 r k n, splitOnChar ':' id = [p0, r, k, n] →
      resourceRedshiftRoleGrantDelete id (Except.error e) (Except.ok ()) =
        ⟨some (buildRevokeQuery r k n), true, none⟩) ∧
    resourceRedshiftRoleDelete (Except.ok false) (Except.ok ())
        (Except.ok ()) =
      ⟨false, false, none⟩ := by
  refine ⟨?_, rfl⟩
  intro id p0 r k n hsplit
  simp only [resourceRedshiftRoleGrantDelete, hsplit, if_pos h]

/-- C3 witness: the amended claim at a concrete identifier and error text. -/
theorem delete_absence_paths_witness :
    resourceRedshiftRoleGrantDelete "role:r:user:x".toList
        (Except.error "role \"r\" does not exist".toList) (Except.ok ()) =
      ⟨some (buildRevokeQuery "r".toList "user".toList "x".toList), true,
        none⟩ ∧
    resourceRedshiftRoleDelete (Except.ok false) (Except.ok ())
        (Except.ok ()) =
      ⟨false, false, none⟩ := by
  obtain ⟨h1, h2⟩ :=
    delete_absence_paths "role \"r\" does not exist".toList (by decide)
  exact ⟨h1 "role:r:user:x".toList "role".toList "r".toList "user".toList
    "x".toList (by decide), h2⟩

/-- C4: on a first completed call (state not yet checked), `IsServerless`
returns true when the serverless-only probe succeeds; on an
insufficient-privileges failure it issues the provisioned-only probe and
returns true exactly when that second probe fails, false when it succeeds;
any other first-probe failure is returned as an error with a false value. -/
theorem isServerless_probe_logic (s : ConfigServerlessState)
    (h : s.checkedForServerless = false) :
    (∀ p2, isServerlessCall s (Except.ok ()) p2 =
      ⟨⟨true, true⟩, true, none, 1⟩) ∧
    (∀ e2, isServerlessCall s
        (Except.error ProbeErr.insufficientPrivileges) (Except.error e2) =
      ⟨⟨true, true⟩, true, none, 2⟩) ∧
    (isServerlessCall s (Except.error ProbeErr.insufficientPrivileges)
        (Except.ok ()) =
      ⟨⟨false, true⟩, false, none, 2⟩) ∧
    (∀ m p2, isServerlessCall s (Except.error (ProbeErr.otherErr m)) p2 =
      ⟨⟨s.isServerless, true⟩, false, some (ProbeErr.otherErr m), 1⟩) := by
  refine ⟨fun p2 => ?_, fun e2 => ?_, ?_, fun m p2 => ?_⟩ <;>
    simp only [isServerlessCall, h, Bool.false_eq_true, if_false]

/-- C4 witness: the probe logic at the fresh `NewConfig` state. -/
theorem isServerless_probe_logic_witness :
    isServerlessCall newConfigServerlessState (Except.ok ()) (Except.ok ()) =
      ⟨⟨true, true⟩, true, none, 1⟩ ∧
    isServerlessCall newConfigServerlessState
        (Except.error ProbeErr.insufficientPrivileges) (Except.ok ()) =
      ⟨⟨false, true⟩, false, none, 2⟩ := by
  obtain ⟨h1, _, h3, _⟩ :=
    isServerless_probe_logic newConfigServerlessState rfl
  exact ⟨h1 _, h3⟩

/-- C5: the checked flag is true after any `IsServerless` call — it is set
unconditionally before probing — and every call after a completed one, with
whatever probe answers, returns the stored flag with no error and issues no
probe queries; so the probe computation runs at most once per `Config`, even
when the first attempt returned an error. -/
theorem isServerless_computeOnce (s : ConfigServerlessState)
    (p1 p2 q1 q2 : Except ProbeErr Unit) :
    (isServerlessCall s p1 p2).state.checkedForServerless = true ∧
    isServerlessCall (isServerlessCall s p1 p2).state q1 q2 =
      ⟨(isServerlessCall s p1 p2).state,
        (isServerlessCall s p1 p2).state.isServerless, none, 0⟩ := by
  have hchecked : ∀ t : ConfigServerlessState,
      t.checkedForServerless = true →
      isServerlessCall t q1 q2 = ⟨t, t.isServerless, none, 0⟩ := by
    intro t ht
    simp only [isServerlessCall, ht, if_true]
  by_cases hc : s.checkedForServerless = true
  · have hs : isServerlessCall s p1 p2 = ⟨s, s.isServerless, none, 0⟩ := by
      simp only [isServerlessCall, hc, if_true]
    rw [hs]
    exact ⟨hc, hchecked s hc⟩
  · have hc' : s.checkedForServerless = false := by
      simpa using hc
    have hstate : (isServerlessCall s p1 p2).state.checkedForServerless
        = true := by
      simp only [isServerlessCall, hc', Bool.false_eq_true, if_false]
      cases p1 with
      | ok _ => rfl
      | error e =>
        cases e with
        | insufficientPrivileges => cases p2 <;> rfl
        | otherErr m => rfl
    exact ⟨hstate, hchecked _ hstate⟩

/-- C6 counterexample: after a first `Connect` that created a handle and
retrieved the username, a second `Connect` that again creates a handle (the
cached one is not live) issues zero identity queries, not one — the username
is memoized on the client's config. -/
theorem connect_secondCreation_counterexample :
    (clientConnect
        (clientConnect ⟨[]⟩ false (Except.ok ()) (Except.ok "bob".toList)).state
        false (Except.ok ()) (Except.ok "bob".toList)).created = true ∧
    (clientConnect
        (clientConnect ⟨[]⟩ false (Except.ok ()) (Except.ok "bob".toList)).state
        false (Except.ok ()) (Except.ok "bob".toList)).usernameQueries = 0 := by
  decide

/-- C6 (amended): a `Connect` reusing a live cached handle issues zero
identity queries; a `Connect` creating a handle for a client whose config has
no username cached yet issues exactly one; and a `Connect` creating a further
handle for a client whose config already holds a username issues zero,
because `GetUsername` is memoized per client config. -/
theorem connect_username_query_count (s : ConfigUsernameState)
    (q : DbRes Chars) (h : s.retrievedUsername ≠ []) :
    (∀ openRes q2, clientConnect s true openRes q2 = ⟨s, false, 0, none⟩) ∧
    (clientConnect ⟨[]⟩ false (Except.ok ()) q).usernameQueries = 1 ∧
    clientConnect s false (Except.ok ()) q = ⟨s, true, 0, none⟩ := by
  refine ⟨fun openRes q2 => rfl, ?_, ?_⟩
  · cases q with
    | error e => rfl
    | ok u => rfl
  · have hg : getUsername s q = ⟨s, Except.ok s.retrievedUsername, 0⟩ := by
      unfold getUsername
      rw [if_pos h]
    unfold clientConnect
    rw [if_neg (by simp), hg]

/-- C6 witness: the amended claim at a config that has already cached the
username `bob`. -/
theorem connect_username_query_count_witness :
    (clientConnect ⟨"bob".toList⟩ true (Except.ok ())
      (Except.ok "bob".toList) = ⟨⟨"bob".toList⟩, false, 0, none⟩) ∧
    (clientConnect ⟨[]⟩ false (Except.ok ())
      (Except.ok "alice".toList)).usernameQueries = 1 ∧
    clientConnect ⟨"bob".toList⟩ false (Except.ok ())
        (Except.ok "alice".toList) =
      ⟨⟨"bob".toList⟩, true, 0, none⟩ := by
  obtain ⟨h1, h2, h3⟩ := connect_username_query_count ⟨"bob".toList⟩
    (Except.ok "alice".toList) (by decide)
  exact ⟨h1 _ _, h2, h3⟩

end TPRedshift
